import Mathlib

/-!
Verification of the host-side splat-rendering pipeline of
`crates/brush-render/src/render.rs`.

The file shallowly embeds the host code: machine `u32` arithmetic becomes
`Nat` with explicit `% 2^32` where overflow matters, Rust panics become
`Option`/`Except` error results, and the sequence of GPU-side calls issued
by `render_forward` (uniform-buffer creation, tensor allocations, kernel
dispatches, radix sorts, prefix sums) becomes an explicit event trace.
Constants and helpers that live in other crates of the repository
(`TILE_WIDTH`, `INTERSECTS_UPPER_BOUND`, the generated uniform layout, the
`DimCheck` validator) are modelled from the specification and kept as
parameters or clearly documented definitions.
-/

/-- `2^32`, the modulus of Rust `u32` arithmetic. -/
def U32_MOD : Nat := 4294967296

/-- Largest `u32` value, `2^32 - 1`. -/
def U32_MAX : Nat := 4294967295

/-- Reduction of a natural number to `u32` range (Rust `as u32` on
nonnegative values). -/
def toU32 (n : Nat) : Nat := n % U32_MOD

/-- Rust `u32::saturating_mul`: the product clamped to `u32::MAX`
instead of wrapping. -/
def saturating_mul_u32 (a b : Nat) : Nat := min (a * b) U32_MAX

/-- Rust `u32::div_ceil` (`(a + b - 1) / b` for positive `b`). -/
def div_ceil (a b : Nat) : Nat := (a + b - 1) / b

/-- Rust `u32::leading_zeros` of the 32-bit pattern of `n`:
`32 - Nat.size (n % 2^32)`. -/
def u32_leading_zeros (n : Nat) : Nat := 32 - Nat.size (toU32 n)

/-- `sh_coeffs_for_degree` from `render.rs`: `(degree + 1).pow(2)` on
`u32` (the squaring wraps at `2^32` like the Rust release build). -/
def sh_coeffs_for_degree (degree : Nat) : Nat :=
  toU32 (toU32 (degree + 1) ^ 2)

/-- `sh_degree_from_coeffs` from `render.rs`: matches the coefficient
count against the five legal values and panics otherwise; the panic is
embedded as `none`. -/
def sh_degree_from_coeffs (coeffs_per_channel : Nat) : Option Nat :=
  if coeffs_per_channel = 1 then some 0
  else if coeffs_per_channel = 4 then some 1
  else if coeffs_per_channel = 9 then some 2
  else if coeffs_per_channel = 16 then some 3
  else if coeffs_per_channel = 25 then some 4
  else none

/-- Modelled from the spec: compile-time constants of the pipeline that
live outside `src/` — `shaders::helpers::TILE_WIDTH` (the fixed tile edge
length, a positive constant), `INTERSECTS_UPPER_BOUND` (the hard ceiling
on the intersection capacity, a `u32` constant of the crate root) and the
number of `f32` words of the generated `shaders::helpers::ProjectedSplat`
record. Their values are not in `src/`, so the embedding carries them as
parameters. -/
structure Params where
  tileWidth : Nat
  intersectsUpperBound : Nat
  projectedSplatSize : Nat
deriving DecidableEq, Repr

/-- `calc_tile_bounds` from `render.rs`: per-axis tile counts
`(⌈w / TILE_WIDTH⌉, ⌈h / TILE_WIDTH⌉)`. -/
def calc_tile_bounds (p : Params) (w h : Nat) : Nat × Nat :=
  (div_ceil w p.tileWidth, div_ceil h p.tileWidth)

/-- The tile count `tile_bounds[0] * tile_bounds[1]` as computed in
32-bit arithmetic (the 32-bit product pattern). -/
def num_tiles32 (p : Params) (w h : Nat) : Nat :=
  toU32 ((calc_tile_bounds p w h).1 * (calc_tile_bounds p w h).2)

/-- `max_intersections` from `render.rs`: the intersection-capacity
heuristic `num_splats.saturating_mul(num_tiles).min(INTERSECTS_UPPER_BOUND)`. -/
def max_intersections (p : Params) (w h num_splats : Nat) : Nat :=
  min (saturating_mul_u32 num_splats (num_tiles32 p w h)) p.intersectsUpperBound

/-- The key bit-width of the tile sort, `u32::BITS - num_tiles.leading_zeros()`
from `render.rs`. -/
def tile_sort_bits (p : Params) (w h : Nat) : Nat :=
  32 - u32_leading_zeros (num_tiles32 p w h)

theorem tile_sort_bits_eq_size (p : Params) (w h : Nat) :
    tile_sort_bits p w h = Nat.size (num_tiles32 p w h) := by
  have hlt : num_tiles32 p w h < 2 ^ 32 := by
    have : num_tiles32 p w h < U32_MOD := Nat.mod_lt _ (by simp [U32_MOD])
    simpa [U32_MOD] using this
  have hsz : Nat.size (num_tiles32 p w h) ≤ 32 := Nat.size_le.2 hlt
  simp only [tile_sort_bits, u32_leading_zeros]
  have : toU32 (num_tiles32 p w h) = num_tiles32 p w h := by
    simp [toU32, num_tiles32, Nat.mod_mod_of_dvd]
  rw [this]
  omega

/-- The numeric type of an allocated tensor (`burn::tensor::DType`
restricted to the two cases `render_forward` uses). -/
inductive DType where
  | f32
  | i32
deriving DecidableEq, Repr

/-- A device buffer as the host sees it: an identifying name, its shape,
and its numeric type. Buffer contents stay device-side. -/
structure Buf where
  name : String
  dims : List Nat
  dtype : DType
deriving DecidableEq, Repr

/-- A one-word slice of the uniform buffer (`int_slice` of a single field
at a word offset), the device-resident scalar handed to later calls. -/
structure UniformSlice where
  lo : Nat
  hi : Nat
deriving DecidableEq, Repr

/-- Modelled from the spec: camera data consumed by `render_forward`
(`camera.world_to_local()`, `camera.position`, `camera.focal(img_size)`,
`camera.center(img_size)`); the projection math itself is out of scope
and the fields are carried opaquely. -/
structure Camera where
  world_to_local_mat : List (List Rat)
  posX : Rat
  posY : Rat
  posZ : Rat
  focal : Nat → Nat → Rat × Rat
  center : Nat → Nat → Rat × Rat

/-- The `shaders::helpers::RenderUniforms` record as initialized at
lines 133–148 of `render.rs`. -/
structure RenderUniforms where
  viewmat : List (List Rat)
  camera_position : Rat × Rat × Rat
  focal : Rat × Rat
  pixel_center : Rat × Rat
  img_size : Nat × Nat
  tile_bounds : Nat × Nat
  num_visible : Nat
  num_intersections : Nat
  sh_degree : Nat
  total_splats : Nat

/-- Modelled from the spec: the word offsets (byte offset / 4) of the two
counter fields of `RenderUniforms`. The generated shader-side layout is
not in `src/`; per the spec the record's byte layout is stable and
per-field addressable, and the offsets follow the declared field order
(16 words of view matrix, 4 of camera position, 2 each of focal,
pixel center, image size and tile bounds). -/
def NUM_VISIBLE_WORD : Nat := 16 + 4 + 2 + 2 + 2 + 2

/-- Word offset of the `num_intersections` field, directly after
`num_visible`. -/
def NUM_INTERSECTIONS_WORD : Nat := NUM_VISIBLE_WORD + 1

/-- The one-word uniform slice holding `num_visible` (line 181–185). -/
def num_visible_slice : UniformSlice :=
  ⟨NUM_VISIBLE_WORD, NUM_VISIBLE_WORD + 1⟩

/-- The one-word uniform slice holding `num_intersections`
(lines 230–235). -/
def num_intersections_slice : UniformSlice :=
  ⟨NUM_INTERSECTIONS_WORD, NUM_INTERSECTIONS_WORD + 1⟩

/-- One host-issued GPU-side call of `render_forward`, in program order. -/
inductive Event where
  | createUniformBuffer (u : RenderUniforms)
  | allocTensor (b : Buf)
  | intSlice (s : UniformSlice)
  | createDispatchBuf (s : UniformSlice)
  | dispatchKernel (kernel : String) (bindings : List String)
  | radixSortCall (keys : Buf) (payloads : Buf) (count : UniformSlice) (bits : Nat)
  | prefixSumCall (input : Buf)

/-- Whether an event is a kernel launch (`client.execute_unchecked`). -/
def Event.isKernelDispatch : Event → Bool
  | .dispatchKernel _ _ => true
  | _ => false

/-- The fatal precondition failures of `render_forward`, each a Rust
panic in the source. -/
inductive RenderError where
  | zeroSizedImage
  | dimMismatch
  | invalidShCount (c : Nat)
deriving DecidableEq, Repr

/-- The `RenderAuxPrimitive` bundle returned by `render_forward`
(lines 344–357). -/
structure RenderAux where
  uniforms_buffer : RenderUniforms
  num_visible : UniformSlice
  num_intersections : UniformSlice
  tile_offsets : Buf
  projected_splats : Buf
  final_index : Buf
  compact_gid_from_isect : Buf
  global_from_compact_gid : Buf
  radii : Buf

/-- The host-visible input of `render_forward`: requested image size, the
shapes of the five splat tensors, and the packed-output flag. Tensor
contents are device-side and never read by the host code. -/
structure RenderInput where
  imgW : Nat
  imgH : Nat
  meansDims : List Nat
  logScalesDims : List Nat
  quatsDims : List Nat
  shCoeffsDims : List Nat
  rawOpacitiesDims : List Nat
  rasterU32 : Bool
deriving DecidableEq, Repr

/-- A dimension bound of the `DimCheck` validator: either an exact size
(`3.into()`) or a named dimension (`"D".into()`) that must agree across
all tensors where it appears. -/
inductive DimBound where
  | exact (n : Nat)
  | matching (nm : String)
deriving DecidableEq, Repr

/-- Modelled from the spec: one step of the `DimCheck` validator
(`crate::dim_check`, not under `src/`). A named bound binds the dimension
on first sight and must equal the bound value afterwards; an exact bound
must equal the dimension; any mismatch is a panic (`none`). -/
def checkBound (st : List (String × Nat)) (d : Nat) :
    DimBound → Option (List (String × Nat))
  | .exact n => if d = n then some st else none
  | .matching nm =>
    match st.lookup nm with
    | some v => if d = v then some st else none
    | none => some ((nm, d) :: st)

/-- Modelled from the spec: `DimCheck::check_dims` over one tensor — the
tensor's rank must equal the bound list's length and every dimension must
satisfy its bound, threading the name bindings. -/
def check_dims (st : List (String × Nat)) :
    List Nat → List DimBound → Option (List (String × Nat))
  | [], [] => some st
  | d :: ds, b :: bs => (checkBound st d b).bind fun st2 => check_dims st2 ds bs
  | [], _ :: _ => none
  | _ :: _, [] => none

/-- The `DimCheck` chain of `render_forward` (lines 104–109): means
`["D", 3]`, log scales `["D", 3]`, quats `["D", 4]`, sh coefficients
`["D", "C", 3]`, raw opacities `["D"]`. -/
def dimCheckAll (inp : RenderInput) : Option (List (String × Nat)) :=
  (check_dims [] inp.meansDims [.matching "D", .exact 3]).bind fun s1 =>
  (check_dims s1 inp.logScalesDims [.matching "D", .exact 3]).bind fun s2 =>
  (check_dims s2 inp.quatsDims [.matching "D", .exact 4]).bind fun s3 =>
  (check_dims s3 inp.shCoeffsDims [.matching "D", .matching "C", .exact 3]).bind fun s4 =>
  check_dims s4 inp.rawOpacitiesDims [.matching "D"]

/-- `num_points = means.shape.dims[0]` (line 152). -/
def num_points (inp : RenderInput) : Nat := inp.meansDims.getD 0 0

/-- The spherical-harmonic coefficient count `sh_coeffs.shape.dims[1]`
(line 130). -/
def sh_coeff_count (inp : RenderInput) : Nat := inp.shCoeffsDims.getD 1 0

/-- The five input tensors as named buffers. -/
def means_buf (inp : RenderInput) : Buf := ⟨"means", inp.meansDims, .f32⟩

/-- `log_scales` input buffer. -/
def log_scales_buf (inp : RenderInput) : Buf := ⟨"log_scales", inp.logScalesDims, .f32⟩

/-- `quats` input buffer. -/
def quats_buf (inp : RenderInput) : Buf := ⟨"quats", inp.quatsDims, .f32⟩

/-- `sh_coeffs` input buffer. -/
def sh_coeffs_buf (inp : RenderInput) : Buf := ⟨"sh_coeffs", inp.shCoeffsDims, .f32⟩

/-- `raw_opacities` input buffer. -/
def raw_opacities_buf (inp : RenderInput) : Buf := ⟨"raw_opacities", inp.rawOpacitiesDims, .f32⟩

/-- `radii = float_zeros([num_points])` (line 155). -/
def radii_buf (inp : RenderInput) : Buf := ⟨"radii", [num_points inp], .f32⟩

/-- `global_from_presort_gid = int_zeros([num_points])` (line 158). -/
def presort_gid_buf (inp : RenderInput) : Buf :=
  ⟨"global_from_presort_gid", [num_points inp], .i32⟩

/-- `depths = create_tensor([num_points], F32)` (line 159). -/
def depths_buf (inp : RenderInput) : Buf := ⟨"depths", [num_points inp], .f32⟩

/-- The result pair of a `radix_argsort` call: sorted keys and the
payload values reordered accordingly, same shapes as the inputs. -/
def radix_argsort_bufs (keys payloads : Buf) : Buf × Buf :=
  (⟨keys.name ++ "_sorted", keys.dims, keys.dtype⟩,
   ⟨payloads.name ++ "_sorted", payloads.dims, payloads.dtype⟩)

/-- The compact-to-original index map produced by the depth sort
(line 187–194): the payload output of the first `radix_argsort`. -/
def global_from_compact_gid_buf (inp : RenderInput) : Buf :=
  (radix_argsort_bufs (depths_buf inp) (presort_gid_buf inp)).2

/-- `projected_splats = create_tensor([num_points, projected_size], F32)`
(lines 197–199). -/
def projected_splats_buf (p : Params) (inp : RenderInput) : Buf :=
  ⟨"projected_splats", [num_points inp, p.projectedSplatSize], .f32⟩

/-- The intersection capacity the pipeline uses:
`max_intersections(img_size, num_points as u32)` (line 203). -/
def max_intersects (p : Params) (inp : RenderInput) : Nat :=
  max_intersections p inp.imgW inp.imgH (toU32 (num_points inp))

/-- `tiles_hit_per_splat = int_zeros([num_points + 1])` (line 205). -/
def tiles_hit_buf (inp : RenderInput) : Buf :=
  ⟨"tiles_hit_per_splat", [num_points inp + 1], .i32⟩

/-- `isect_info = create_tensor([max_intersects, 2], I32)` (lines 206–207). -/
def isect_info_buf (p : Params) (inp : RenderInput) : Buf :=
  ⟨"isect_info", [max_intersects p inp, 2], .i32⟩

/-- `tile_id_from_isect = create_tensor([max_intersects], I32)`
(lines 246–247). -/
def tile_id_buf (p : Params) (inp : RenderInput) : Buf :=
  ⟨"tile_id_from_isect", [max_intersects p inp], .i32⟩

/-- `compact_gid_from_isect = create_tensor([max_intersects], I32)`
(lines 248–249), before the tile sort. -/
def compact_gid_buf (p : Params) (inp : RenderInput) : Buf :=
  ⟨"compact_gid_from_isect", [max_intersects p inp], .i32⟩

/-- `tile_counts = int_zeros([num_tiles + 1])` (lines 251–254). -/
def tile_counts_buf (p : Params) (inp : RenderInput) : Buf :=
  ⟨"tile_counts", [num_tiles32 p inp.imgW inp.imgH + 1], .i32⟩

/-- The result of a `prefix_sum` call: same shape as the input (the extra
slot for the exclusive-sum convention is allocated by the caller). -/
def prefix_sum_buf (input : Buf) : Buf :=
  ⟨input.name ++ "_scanned", input.dims, input.dtype⟩

/-- `cum_tiles_hit = prefix_sum(tiles_hit_per_splat)` (lines 256–259). -/
def cum_tiles_hit_buf (inp : RenderInput) : Buf := prefix_sum_buf (tiles_hit_buf inp)

/-- The tile-sorted compact-id array (payload output of the tile sort,
lines 282–290). -/
def sorted_compact_gid_buf (p : Params) (inp : RenderInput) : Buf :=
  (radix_argsort_bufs (tile_id_buf p inp) (compact_gid_buf p inp)).2

/-- `tile_offsets = prefix_sum(tile_counts)` (line 293). -/
def tile_offsets_buf (p : Params) (inp : RenderInput) : Buf :=
  prefix_sum_buf (tile_counts_buf p inp)

/-- The output image buffer (lines 300–314): `[height, width, 1]` when
`raster_u32` (channels packed in one word), else `[height, width, 4]`,
always allocated with `DType::F32`. -/
def out_img_buf (inp : RenderInput) : Buf :=
  ⟨"out_img", [inp.imgH, inp.imgW, if inp.rasterU32 then 1 else 4], .f32⟩

/-- `final_index = create_tensor([height, width], I32)` (lines 321–326),
allocated unconditionally. -/
def final_index_buf (inp : RenderInput) : Buf :=
  ⟨"final_index", [inp.imgH, inp.imgW], .i32⟩

/-- The `RenderUniforms` value `render_forward` builds (lines 133–148):
camera and image-geometry constants, both counters zero. -/
def render_uniforms (p : Params) (cam : Camera) (inp : RenderInput)
    (sh_degree : Nat) : RenderUniforms :=
  { viewmat := cam.world_to_local_mat
    camera_position := (cam.posX, cam.posY, cam.posZ)
    focal := cam.focal inp.imgW inp.imgH
    pixel_center := cam.center inp.imgW inp.imgH
    img_size := (inp.imgW, inp.imgH)
    tile_bounds := calc_tile_bounds p inp.imgW inp.imgH
    num_visible := 0
    num_intersections := 0
    sh_degree := sh_degree
    total_splats := toU32 (num_points inp) }

/-- The full trace of GPU-side calls `render_forward` issues on a valid
input, in source order (lines 133–342). -/
def render_events (p : Params) (cam : Camera) (inp : RenderInput)
    (sh_degree : Nat) : List Event :=
  [ .createUniformBuffer (render_uniforms p cam inp sh_degree),
    .allocTensor (radii_buf inp),
    .allocTensor (presort_gid_buf inp),
    .allocTensor (depths_buf inp),
    .dispatchKernel "ProjectSplats"
      ["uniforms_buffer", (means_buf inp).name, (quats_buf inp).name,
       (log_scales_buf inp).name, (raw_opacities_buf inp).name,
       (presort_gid_buf inp).name, (depths_buf inp).name, (radii_buf inp).name],
    .intSlice num_visible_slice,
    .radixSortCall (depths_buf inp) (presort_gid_buf inp) num_visible_slice 32,
    .allocTensor (projected_splats_buf p inp),
    .createDispatchBuf num_visible_slice,
    .allocTensor (tiles_hit_buf inp),
    .allocTensor (isect_info_buf p inp),
    .dispatchKernel "ProjectVisible"
      ["uniforms_buffer", (means_buf inp).name, (log_scales_buf inp).name,
       (quats_buf inp).name, (sh_coeffs_buf inp).name, (raw_opacities_buf inp).name,
       (global_from_compact_gid_buf inp).name, (projected_splats_buf p inp).name,
       (tiles_hit_buf inp).name, (isect_info_buf p inp).name],
    .intSlice num_intersections_slice,
    .createDispatchBuf num_intersections_slice,
    .allocTensor (tile_id_buf p inp),
    .allocTensor (compact_gid_buf p inp),
    .allocTensor (tile_counts_buf p inp),
    .prefixSumCall (tiles_hit_buf inp),
    .dispatchKernel "MapGaussiansToIntersect"
      ["num_intersections", (isect_info_buf p inp).name,
       (cum_tiles_hit_buf inp).name, (tile_counts_buf p inp).name,
       (tile_id_buf p inp).name, (compact_gid_buf p inp).name],
    .radixSortCall (tile_id_buf p inp) (compact_gid_buf p inp)
      num_intersections_slice (tile_sort_bits p inp.imgW inp.imgH),
    .prefixSumCall (tile_counts_buf p inp),
    .allocTensor (out_img_buf inp),
    .allocTensor (final_index_buf inp),
    .dispatchKernel "Rasterize"
      ["uniforms_buffer", (sorted_compact_gid_buf p inp).name,
       (tile_offsets_buf p inp).name, (projected_splats_buf p inp).name,
       (out_img_buf inp).name, (final_index_buf inp).name] ]

/-- The `RenderAuxPrimitive` value returned on a valid input
(lines 344–357). -/
def render_aux (p : Params) (cam : Camera) (inp : RenderInput)
    (sh_degree : Nat) : RenderAux :=
  { uniforms_buffer := render_uniforms p cam inp sh_degree
    num_visible := num_visible_slice
    num_intersections := num_intersections_slice
    tile_offsets := tile_offsets_buf p inp
    projected_splats := projected_splats_buf p inp
    final_index := final_index_buf inp
    compact_gid_from_isect := sorted_compact_gid_buf p inp
    global_from_compact_gid := global_from_compact_gid_buf inp
    radii := radii_buf inp }

/-- The happy path of `render_forward` after all precondition checks
passed: the issued event trace plus the returned image and aux bundle. -/
def render_core (p : Params) (cam : Camera) (inp : RenderInput)
    (sh_degree : Nat) : List Event × (Buf × RenderAux) :=
  (render_events p cam inp sh_degree, (out_img_buf inp, render_aux p cam inp sh_degree))

/-- `render_forward` from `render.rs`: the three synchronous precondition
checks in source order — the zero-size-image assert (line 90), the
`DimCheck` chain (lines 104–109), the spherical-harmonic coefficient
count (line 130) — each a panic embedded as an error result issued before
any GPU-side call, then the dispatch chain. -/
def render_forward (p : Params) (cam : Camera) (inp : RenderInput) :
    List Event × Except RenderError (Buf × RenderAux) :=
  if 0 < inp.imgW ∧ 0 < inp.imgH then
    match dimCheckAll inp with
    | some _ =>
      match sh_degree_from_coeffs (sh_coeff_count inp) with
      | some deg =>
        let r := render_core p cam inp deg
        (r.1, .ok r.2)
      | none => ([], .error (.invalidShCount (sh_coeff_count inp)))
    | none => ([], .error .dimMismatch)
  else ([], .error .zeroSizedImage)

namespace SpecModel

/-- Modelled from the spec: the GPU kernel bodies (projection, culling,
intersection mapping, rasterization) are not under `src/`, so the
depth/tile/compositing pipeline of spec sections 4.2–4.9 is modelled here
over exact rational arithmetic. A splat is reduced to the data those
stages depend on: its view-space depth key, the tile it overlaps, and its
opacity and evaluated color at a pixel of that tile. -/
structure MSplat where
  depth : Rat
  tileId : Nat
  alpha : Rat
  color : Rat
deriving DecidableEq, Repr

/-- Modelled from the spec (section 4.2): culling keeps exactly the
splats whose visibility predicate holds; the predicate is a function of
the splat alone (positive view-space depth). -/
def visibleSplats (l : List MSplat) : List MSplat :=
  l.filter fun s => decide (0 < s.depth)

/-- The depth-key order of the depth sort. -/
def depthLe (a b : MSplat) : Prop := a.depth ≤ b.depth

/-- Strict depth order. -/
def depthLt (a b : MSplat) : Prop := a.depth < b.depth

instance : DecidableRel depthLe := fun a b =>
  inferInstanceAs (Decidable (a.depth ≤ b.depth))

instance : IsTotal MSplat depthLe := ⟨fun a b => le_total a.depth b.depth⟩

instance : IsTrans MSplat depthLe := ⟨fun _ _ _ h1 h2 => le_trans h1 h2⟩

instance : IsAntisymm MSplat depthLt := ⟨fun _ _ h1 h2 => (lt_asymm h1 h2).elim⟩

/-- Modelled from the spec (section 4.3): the stable depth sort of the
visible splats, front to back. -/
def depthSorted (l : List MSplat) : List MSplat :=
  List.insertionSort depthLe (visibleSplats l)

/-- Modelled from the spec (sections 4.4–4.8): the intersections of one
tile, in the depth order the stable tile sort preserves. -/
def tileBucket (l : List MSplat) (t : Nat) : List MSplat :=
  (depthSorted l).filter fun s => decide (s.tileId = t)

/-- Modelled from the spec (section 4.9): front-to-back alpha
compositing, `color += alpha * transmittance * splat_color;
transmittance *= (1 - alpha)`. -/
def compositeFrom (c t : Rat) : List MSplat → Rat
  | [] => c
  | s :: rest => compositeFrom (c + s.alpha * t * s.color) (t * (1 - s.alpha)) rest

/-- Modelled from the spec: the color of a pixel of tile `t`. -/
def renderPixel (l : List MSplat) (t : Nat) : Rat :=
  compositeFrom 0 1 (tileBucket l t)

theorem depthSorted_eq_of_perm (l1 l2 : List MSplat) (hp : l1.Perm l2)
    (hd : (visibleSplats l1).Pairwise fun a b => a.depth ≠ b.depth) :
    depthSorted l1 = depthSorted l2 := by
  have hv : (visibleSplats l1).Perm (visibleSplats l2) := hp.filter _
  have hperm : (depthSorted l1).Perm (depthSorted l2) :=
    ((List.perm_insertionSort depthLe (visibleSplats l1)).trans hv).trans
      (List.perm_insertionSort depthLe (visibleSplats l2)).symm
  have hsym : ∀ {x y : MSplat}, x.depth ≠ y.depth → y.depth ≠ x.depth :=
    fun h => h.symm
  have hd1 : (depthSorted l1).Pairwise fun a b => a.depth ≠ b.depth :=
    (List.Perm.pairwise_iff hsym
      (List.perm_insertionSort depthLe (visibleSplats l1))).2 hd
  have hd2 : (depthSorted l2).Pairwise fun a b => a.depth ≠ b.depth :=
    (List.Perm.pairwise_iff hsym hperm).1 hd1
  have hs1 : (depthSorted l1).Pairwise depthLe :=
    List.sorted_insertionSort depthLe (visibleSplats l1)
  have hs2 : (depthSorted l2).Pairwise depthLe :=
    List.sorted_insertionSort depthLe (visibleSplats l2)
  have hstrict : ∀ m : List MSplat, m.Pairwise depthLe →
      (m.Pairwise fun a b => a.depth ≠ b.depth) → m.Pairwise depthLt := by
    intro m hle hne
    have := List.pairwise_and_iff.2 ⟨hle, hne⟩
    exact this.imp fun h => lt_of_le_of_ne h.1 h.2
  exact List.eq_of_perm_of_sorted hperm
    (hstrict _ hs1 hd1) (hstrict _ hs2 hd2)

end SpecModel

/-- On a valid input `render_forward` issues the full event trace and
returns the image and aux bundle of the happy path. -/
theorem render_forward_ok (p : Params) (cam : Camera) (inp : RenderInput)
    (deg : Nat) (h1 : 0 < inp.imgW) (h2 : 0 < inp.imgH)
    (hd : (dimCheckAll inp).isSome)
    (hsh : sh_degree_from_coeffs (sh_coeff_count inp) = some deg) :
    render_forward p cam inp =
      (render_events p cam inp deg,
       .ok (out_img_buf inp, render_aux p cam inp deg)) := by
  unfold render_forward
  rw [if_pos ⟨h1, h2⟩]
  obtain ⟨st, hst⟩ := Option.isSome_iff_exists.1 hd
  rw [hst, hsh]
  rfl

/-- Concrete parameter values used by witnesses (`TILE_WIDTH = 16`, an
upper bound of `65535 * 256`, a ten-word projected-splat record). -/
def testParams : Params := ⟨16, 16711680, 10⟩

/-- A concrete camera for witnesses. -/
def testCam : Camera := ⟨[], 0, 0, 0, fun _ _ => (0, 0), fun _ _ => (0, 0)⟩

/-- A valid concrete input: two splats, a 16 × 16 image, one
spherical-harmonic coefficient per channel. -/
def inpOk : RenderInput :=
  { imgW := 16, imgH := 16, meansDims := [2, 3], logScalesDims := [2, 3]
    quatsDims := [2, 4], shCoeffsDims := [2, 1, 3], rawOpacitiesDims := [2]
    rasterU32 := false }

/-- `inpOk` with the packed-`u32` output flag set. -/
def inpOkU32 : RenderInput :=
  { inpOk with rasterU32 := true }

/-- A zero-area image input. -/
def inpZero : RenderInput :=
  { inpOk with imgW := 0 }

/-- Mismatched leading dimensions: two means but three quats. -/
def inpMismatch : RenderInput :=
  { inpOk with quatsDims := [3, 4] }

/-- An unsupported spherical-harmonic coefficient count (2). -/
def inpBadSh : RenderInput :=
  { inpOk with shCoeffsDims := [2, 2, 3] }

/-- C1: for every degree `d ∈ {0,…,4}`,
`sh_degree_from_coeffs (sh_coeffs_for_degree d) = d`, and for every
coefficient count outside `{1, 4, 9, 16, 25}` the inference panics
(returns `none`) instead of returning a degree. -/
theorem C1_sh_degree_inverse :
    (∀ d, d ≤ 4 → sh_degree_from_coeffs (sh_coeffs_for_degree d) = some d) ∧
    (∀ c, c ≠ 1 → c ≠ 4 → c ≠ 9 → c ≠ 16 → c ≠ 25 →
      sh_degree_from_coeffs c = none) := by
  constructor
  · intro d hd
    interval_cases d <;> decide
  · intro c g1 g4 g9 g16 g25
    simp [sh_degree_from_coeffs, g1, g4, g9, g16, g25]

/-- Witness for C1 at degree 3 and at the rejected count 7. -/
theorem C1_sh_degree_inverse_witness :
    sh_degree_from_coeffs (sh_coeffs_for_degree 3) = some 3 ∧
    sh_degree_from_coeffs 7 = none :=
  ⟨C1_sh_degree_inverse.1 3 (by decide),
   C1_sh_degree_inverse.2 7 (by decide) (by decide) (by decide) (by decide)
     (by decide)⟩

/-- C9: `max_intersections` is a total function, its result never
exceeds `INTERSECTS_UPPER_BOUND`, and because the splat-count × tile-count
product is a saturating multiplication, whenever the upper bound fits in
`u32` the result equals the true (unwrapped) product clamped to the
bound. -/
theorem C9_max_intersections_total (p : Params) (w h n : Nat) :
    max_intersections p w h n ≤ p.intersectsUpperBound ∧
    (p.intersectsUpperBound ≤ U32_MAX →
      max_intersections p w h n =
        min (n * num_tiles32 p w h) p.intersectsUpperBound) := by
  constructor
  · exact min_le_right _ _
  · intro hub
    simp only [max_intersections, saturating_mul_u32]
    omega

/-- Witness for C9 at an overflowing product: `2^20` splats on a
`524288 × 524288` image give `2^20 · 2^30 = 2^50` candidate
intersections, far beyond `u32`, yet the capacity is the clamped bound. -/
theorem C9_max_intersections_total_witness :
    testParams.intersectsUpperBound ≤ U32_MAX ∧
    max_intersections testParams 524288 524288 1048576 =
      min (1048576 * num_tiles32 testParams 524288 524288)
        testParams.intersectsUpperBound ∧
    max_intersections testParams 524288 524288 1048576 = 16711680 :=
  ⟨by decide,
   (C9_max_intersections_total testParams 524288 524288 1048576).2 (by decide),
   by decide⟩

/-- The claim's capacity formula stated in the specification's own words,
for comparison with the source's computation: visible splat count times
tile count, clamped to the hard ceiling. -/
def spec_capacity_from_visible (visible num_tiles ub : Nat) : Nat :=
  min (visible * num_tiles) ub

/-- C2 counterexample: on a 16 × 16 image (one tile) with two splats the
pipeline's capacity (`max_intersections`, called with the total splat
count, line 203) is 2, which is not the specification's
visible-count-based formula for every admissible visible count: a scene
whose splats are all culled has visible count 0, yet the capacity is
still 2. -/
theorem C2_capacity_counterexample :
    max_intersections testParams 16 16 2 = 2 ∧
    ¬ ∀ v ≤ 2, max_intersections testParams 16 16 2 =
        spec_capacity_from_visible v (num_tiles32 testParams 16 16)
          testParams.intersectsUpperBound := by
  refine ⟨by decide, fun hall => ?_⟩
  exact absurd (hall 0 (by decide)) (by decide)

/-- C2 (amended): the intersection candidate capacity used by the
pipeline equals the **total** splat count (the leading dimension of the
input arrays, known host-side before visibility is computed) multiplied
by the tile count with saturating `u32` multiplication, clamped to
`INTERSECTS_UPPER_BOUND`; the `isect_info` scratch buffer is allocated
with exactly this capacity. -/
theorem C2_capacity_amended (p : Params) (cam : Camera) (inp : RenderInput)
    (deg : Nat) (h1 : 0 < inp.imgW) (h2 : 0 < inp.imgH)
    (hd : (dimCheckAll inp).isSome)
    (hsh : sh_degree_from_coeffs (sh_coeff_count inp) = some deg) :
    (render_forward p cam inp).1[10]? =
      some (.allocTensor (isect_info_buf p inp)) ∧
    (isect_info_buf p inp).dims =
      [max_intersections p inp.imgW inp.imgH (toU32 (num_points inp)), 2] ∧
    max_intersections p inp.imgW inp.imgH (toU32 (num_points inp)) =
      min (saturating_mul_u32 (toU32 (num_points inp))
        (num_tiles32 p inp.imgW inp.imgH)) p.intersectsUpperBound := by
  rw [render_forward_ok p cam inp deg h1 h2 hd hsh]
  exact ⟨rfl, rfl, rfl⟩

/-- Witness for the amended C2 at the concrete valid input. -/
theorem C2_capacity_amended_witness :
    (render_forward testParams testCam inpOk).1[10]? =
      some (.allocTensor (isect_info_buf testParams inpOk)) ∧
    (isect_info_buf testParams inpOk).dims =
      [max_intersections testParams inpOk.imgW inpOk.imgH
        (toU32 (num_points inpOk)), 2] ∧
    max_intersections testParams inpOk.imgW inpOk.imgH
        (toU32 (num_points inpOk)) =
      min (saturating_mul_u32 (toU32 (num_points inpOk))
        (num_tiles32 testParams inpOk.imgW inpOk.imgH))
        testParams.intersectsUpperBound :=
  C2_capacity_amended testParams testCam inpOk 0 (by decide) (by decide)
    (by decide) (by decide)

/-- C3: every input with a zero-area image, mismatched dimensions across
the splat arrays, or an unsupported spherical-harmonic coefficient count
makes `render_forward` fail synchronously (panic, embedded as an error
result), and the issued event trace is empty — in particular no kernel
is launched. -/
theorem C3_fail_fast (p : Params) (cam : Camera) (inp : RenderInput)
    (h : inp.imgW = 0 ∨ inp.imgH = 0 ∨ dimCheckAll inp = none ∨
      sh_degree_from_coeffs (sh_coeff_count inp) = none) :
    (∃ e, (render_forward p cam inp).2 = .error e) ∧
    (render_forward p cam inp).1 = [] := by
  by_cases hw : 0 < inp.imgW ∧ 0 < inp.imgH
  · rcases h with h | h | h | h
    · exact absurd hw.1 (by omega)
    · exact absurd hw.2 (by omega)
    · unfold render_forward
      rw [if_pos hw, h]
      exact ⟨⟨_, rfl⟩, rfl⟩
    · unfold render_forward
      rw [if_pos hw]
      cases hdim : dimCheckAll inp with
      | none => exact ⟨⟨_, rfl⟩, rfl⟩
      | some st =>
        rw [h]
        exact ⟨⟨_, rfl⟩, rfl⟩
  · unfold render_forward
    rw [if_neg hw]
    exact ⟨⟨_, rfl⟩, rfl⟩

/-- Witness for C3 on all three failure classes: a zero-width image, a
two-versus-three leading-dimension mismatch, and coefficient count 2. -/
theorem C3_fail_fast_witness :
    ((∃ e, (render_forward testParams testCam inpZero).2 = .error e) ∧
      (render_forward testParams testCam inpZero).1 = []) ∧
    ((∃ e, (render_forward testParams testCam inpMismatch).2 = .error e) ∧
      (render_forward testParams testCam inpMismatch).1 = []) ∧
    ((∃ e, (render_forward testParams testCam inpBadSh).2 = .error e) ∧
      (render_forward testParams testCam inpBadSh).1 = []) :=
  ⟨C3_fail_fast testParams testCam inpZero (Or.inl (by decide)),
   C3_fail_fast testParams testCam inpMismatch
     (Or.inr (Or.inr (Or.inl (by decide)))),
   C3_fail_fast testParams testCam inpBadSh
     (Or.inr (Or.inr (Or.inr (by decide))))⟩

/-- C4: the depth sort is invoked as a radix argsort with the per-splat
depth buffer as keys (reinterpreted as `u32` by the external sort), the
full 32-bit key width, the device-resident visible-count scalar (the
one-word slice of the uniform buffer at the `num_visible` field) as the
bound, and the original-splat-index buffer as payload; its payload output
becomes the `global_from_compact_gid` map of the aux bundle. -/
theorem C4_depth_sort_invocation (p : Params) (cam : Camera)
    (inp : RenderInput) (deg : Nat) (h1 : 0 < inp.imgW) (h2 : 0 < inp.imgH)
    (hd : (dimCheckAll inp).isSome)
    (hsh : sh_degree_from_coeffs (sh_coeff_count inp) = some deg) :
    ∃ aux : RenderAux,
      (render_forward p cam inp).2 = .ok (out_img_buf inp, aux) ∧
      (render_forward p cam inp).1[5]? = some (.intSlice num_visible_slice) ∧
      (render_forward p cam inp).1[6]? =
        some (.radixSortCall (depths_buf inp) (presort_gid_buf inp)
          num_visible_slice 32) ∧
      aux.global_from_compact_gid =
        (radix_argsort_bufs (depths_buf inp) (presort_gid_buf inp)).2 ∧
      aux.num_visible = num_visible_slice ∧
      num_visible_slice.lo = NUM_VISIBLE_WORD := by
  rw [render_forward_ok p cam inp deg h1 h2 hd hsh]
  exact ⟨render_aux p cam inp deg, rfl, rfl, rfl, rfl, rfl, rfl⟩

/-- Witness for C4 at the concrete valid input. -/
theorem C4_depth_sort_invocation_witness :
    ∃ aux : RenderAux,
      (render_forward testParams testCam inpOk).2 =
        .ok (out_img_buf inpOk, aux) ∧
      (render_forward testParams testCam inpOk).1[5]? =
        some (.intSlice num_visible_slice) ∧
      (render_forward testParams testCam inpOk).1[6]? =
        some (.radixSortCall (depths_buf inpOk) (presort_gid_buf inpOk)
          num_visible_slice 32) ∧
      aux.global_from_compact_gid =
        (radix_argsort_bufs (depths_buf inpOk) (presort_gid_buf inpOk)).2 ∧
      aux.num_visible = num_visible_slice ∧
      num_visible_slice.lo = NUM_VISIBLE_WORD :=
  C4_depth_sort_invocation testParams testCam inpOk 0 (by decide) (by decide)
    (by decide) (by decide)

/-- C5: the tile sort is invoked with the tile-id buffer as keys, the
compact-id buffer as payload, the device-resident intersection-count
scalar as the bound, and a key bit-width of
`32 - num_tiles.leading_zeros()` — the minimal width `b` with
`num_tiles < 2^b`, which covers every tile id and is not a fixed 32-bit
word width. -/
theorem C5_tile_sort_invocation (p : Params) (cam : Camera)
    (inp : RenderInput) (deg : Nat) (h1 : 0 < inp.imgW) (h2 : 0 < inp.imgH)
    (hd : (dimCheckAll inp).isSome)
    (hsh : sh_degree_from_coeffs (sh_coeff_count inp) = some deg) :
    (render_forward p cam inp).1[19]? =
      some (.radixSortCall (tile_id_buf p inp) (compact_gid_buf p inp)
        num_intersections_slice (tile_sort_bits p inp.imgW inp.imgH)) ∧
    tile_sort_bits p inp.imgW inp.imgH =
      32 - u32_leading_zeros (num_tiles32 p inp.imgW inp.imgH) ∧
    (∀ tid, tid < num_tiles32 p inp.imgW inp.imgH →
      tid < 2 ^ tile_sort_bits p inp.imgW inp.imgH) ∧
    (∀ b, num_tiles32 p inp.imgW inp.imgH < 2 ^ b →
      tile_sort_bits p inp.imgW inp.imgH ≤ b) := by
  refine ⟨?_, rfl, ?_, ?_⟩
  · rw [render_forward_ok p cam inp deg h1 h2 hd hsh]
    rfl
  · intro tid htid
    calc tid < num_tiles32 p inp.imgW inp.imgH := htid
      _ < 2 ^ Nat.size (num_tiles32 p inp.imgW inp.imgH) := Nat.lt_size_self _
      _ = 2 ^ tile_sort_bits p inp.imgW inp.imgH := by
          rw [tile_sort_bits_eq_size]
  · intro b hb
    rw [tile_sort_bits_eq_size]
    exact Nat.size_le.2 hb

/-- Witness for C5: on the 16 × 16 single-tile image the key width is a
single bit, not 32. -/
theorem C5_tile_sort_invocation_witness :
    ((render_forward testParams testCam inpOk).1[19]? =
      some (.radixSortCall (tile_id_buf testParams inpOk)
        (compact_gid_buf testParams inpOk) num_intersections_slice
        (tile_sort_bits testParams inpOk.imgW inpOk.imgH)) ∧
     tile_sort_bits testParams inpOk.imgW inpOk.imgH =
       32 - u32_leading_zeros (num_tiles32 testParams inpOk.imgW inpOk.imgH) ∧
     (∀ tid, tid < num_tiles32 testParams inpOk.imgW inpOk.imgH →
       tid < 2 ^ tile_sort_bits testParams inpOk.imgW inpOk.imgH) ∧
     (∀ b, num_tiles32 testParams inpOk.imgW inpOk.imgH < 2 ^ b →
       tile_sort_bits testParams inpOk.imgW inpOk.imgH ≤ b)) ∧
    tile_sort_bits testParams inpOk.imgW inpOk.imgH = 1 :=
  ⟨C5_tile_sort_invocation testParams testCam inpOk 0 (by decide) (by decide)
    (by decide) (by decide), by
      have h1 : num_tiles32 testParams inpOk.imgW inpOk.imgH = 1 := by decide
      rw [tile_sort_bits_eq_size, h1, Nat.size_one]⟩

/-- C6: the output image buffer has shape `[height, width, 4]` for float
channels and `[height, width, 1]` (channels packed into one 32-bit word)
when `raster_u32` is set, matching the requested image size; it is
allocated as `F32` either way. -/
theorem C6_out_image_shape (p : Params) (cam : Camera) (inp : RenderInput)
    (deg : Nat) (h1 : 0 < inp.imgW) (h2 : 0 < inp.imgH)
    (hd : (dimCheckAll inp).isSome)
    (hsh : sh_degree_from_coeffs (sh_coeff_count inp) = some deg) :
    ∃ aux : RenderAux,
      (render_forward p cam inp).2 = .ok (out_img_buf inp, aux) ∧
      (out_img_buf inp).dims =
        [inp.imgH, inp.imgW, if inp.rasterU32 then 1 else 4] ∧
      (out_img_buf inp).dtype = .f32 := by
  rw [render_forward_ok p cam inp deg h1 h2 hd hsh]
  exact ⟨render_aux p cam inp deg, rfl, rfl, rfl⟩

/-- Witness for C6 at both values of the packed-output flag. -/
theorem C6_out_image_shape_witness :
    (∃ aux : RenderAux,
      (render_forward testParams testCam inpOk).2 =
        .ok (out_img_buf inpOk, aux) ∧
      (out_img_buf inpOk).dims =
        [inpOk.imgH, inpOk.imgW, if inpOk.rasterU32 then 1 else 4] ∧
      (out_img_buf inpOk).dtype = .f32) ∧
    (∃ aux : RenderAux,
      (render_forward testParams testCam inpOkU32).2 =
        .ok (out_img_buf inpOkU32, aux) ∧
      (out_img_buf inpOkU32).dims =
        [inpOkU32.imgH, inpOkU32.imgW, if inpOkU32.rasterU32 then 1 else 4] ∧
      (out_img_buf inpOkU32).dtype = .f32) :=
  ⟨C6_out_image_shape testParams testCam inpOk 0 (by decide) (by decide)
    (by decide) (by decide),
   C6_out_image_shape testParams testCam inpOkU32 0 (by decide) (by decide)
    (by decide) (by decide)⟩

/-- C7: the very first GPU-side call of the trace is the creation of the
uniform record, so it precedes every dispatch, and the record carries
both mutable counters initialized to zero alongside the camera and
image-geometry constants. -/
theorem C7_uniform_counters_zero (p : Params) (cam : Camera)
    (inp : RenderInput) (deg : Nat) (h1 : 0 < inp.imgW) (h2 : 0 < inp.imgH)
    (hd : (dimCheckAll inp).isSome)
    (hsh : sh_degree_from_coeffs (sh_coeff_count inp) = some deg) :
    ∃ u rest, (render_forward p cam inp).1 = .createUniformBuffer u :: rest ∧
      u.num_visible = 0 ∧
      u.num_intersections = 0 ∧
      u.img_size = (inp.imgW, inp.imgH) ∧
      u.tile_bounds = calc_tile_bounds p inp.imgW inp.imgH ∧
      u.viewmat = cam.world_to_local_mat ∧
      u.camera_position = (cam.posX, cam.posY, cam.posZ) ∧
      u.focal = cam.focal inp.imgW inp.imgH ∧
      u.pixel_center = cam.center inp.imgW inp.imgH ∧
      u.sh_degree = deg ∧
      u.total_splats = toU32 (num_points inp) := by
  rw [render_forward_ok p cam inp deg h1 h2 hd hsh]
  exact ⟨render_uniforms p cam inp deg, _, rfl, rfl, rfl, rfl, rfl, rfl, rfl,
    rfl, rfl, rfl, rfl⟩

/-- Witness for C7 at the concrete valid input. -/
theorem C7_uniform_counters_zero_witness :
    ∃ u rest, (render_forward testParams testCam inpOk).1 =
        .createUniformBuffer u :: rest ∧
      u.num_visible = 0 ∧
      u.num_intersections = 0 ∧
      u.img_size = (inpOk.imgW, inpOk.imgH) ∧
      u.tile_bounds = calc_tile_bounds testParams inpOk.imgW inpOk.imgH ∧
      u.viewmat = testCam.world_to_local_mat ∧
      u.camera_position = (testCam.posX, testCam.posY, testCam.posZ) ∧
      u.focal = testCam.focal inpOk.imgW inpOk.imgH ∧
      u.pixel_center = testCam.center inpOk.imgW inpOk.imgH ∧
      u.sh_degree = 0 ∧
      u.total_splats = toU32 (num_points inpOk) :=
  C7_uniform_counters_zero testParams testCam inpOk 0 (by decide) (by decide)
    (by decide) (by decide)

/-- C10: for both values of `raster_u32` the per-pixel final contributing
index buffer is allocated with shape `[height, width]`, bound into the
`Rasterize` dispatch, and returned in the aux bundle. -/
theorem C10_final_index (p : Params) (cam : Camera) (inp : RenderInput)
    (deg : Nat) (h1 : 0 < inp.imgW) (h2 : 0 < inp.imgH)
    (hd : (dimCheckAll inp).isSome)
    (hsh : sh_degree_from_coeffs (sh_coeff_count inp) = some deg) :
    ∃ aux : RenderAux,
      (render_forward p cam inp).2 = .ok (out_img_buf inp, aux) ∧
      aux.final_index = final_index_buf inp ∧
      (final_index_buf inp).dims = [inp.imgH, inp.imgW] ∧
      (final_index_buf inp).dtype = .i32 ∧
      (render_forward p cam inp).1[22]? =
        some (.allocTensor (final_index_buf inp)) ∧
      (render_forward p cam inp).1[23]? =
        some (.dispatchKernel "Rasterize"
          ["uniforms_buffer", (sorted_compact_gid_buf p inp).name,
           (tile_offsets_buf p inp).name, (projected_splats_buf p inp).name,
           (out_img_buf inp).name, (final_index_buf inp).name]) := by
  rw [render_forward_ok p cam inp deg h1 h2 hd hsh]
  exact ⟨render_aux p cam inp deg, rfl, rfl, rfl, rfl, rfl, rfl⟩

/-- Witness for C10 at both values of the packed-output flag. -/
theorem C10_final_index_witness :
    (∃ aux : RenderAux,
      (render_forward testParams testCam inpOk).2 =
        .ok (out_img_buf inpOk, aux) ∧
      aux.final_index = final_index_buf inpOk ∧
      (final_index_buf inpOk).dims = [inpOk.imgH, inpOk.imgW] ∧
      (final_index_buf inpOk).dtype = .i32 ∧
      (render_forward testParams testCam inpOk).1[22]? =
        some (.allocTensor (final_index_buf inpOk)) ∧
      (render_forward testParams testCam inpOk).1[23]? =
        some (.dispatchKernel "Rasterize"
          ["uniforms_buffer", (sorted_compact_gid_buf testParams inpOk).name,
           (tile_offsets_buf testParams inpOk).name,
           (projected_splats_buf testParams inpOk).name,
           (out_img_buf inpOk).name, (final_index_buf inpOk).name])) ∧
    (∃ aux : RenderAux,
      (render_forward testParams testCam inpOkU32).2 =
        .ok (out_img_buf inpOkU32, aux) ∧
      aux.final_index = final_index_buf inpOkU32 ∧
      (final_index_buf inpOkU32).dims = [inpOkU32.imgH, inpOkU32.imgW] ∧
      (final_index_buf inpOkU32).dtype = .i32 ∧
      (render_forward testParams testCam inpOkU32).1[22]? =
        some (.allocTensor (final_index_buf inpOkU32)) ∧
      (render_forward testParams testCam inpOkU32).1[23]? =
        some (.dispatchKernel "Rasterize"
          ["uniforms_buffer", (sorted_compact_gid_buf testParams inpOkU32).name,
           (tile_offsets_buf testParams inpOkU32).name,
           (projected_splats_buf testParams inpOkU32).name,
           (out_img_buf inpOkU32).name, (final_index_buf inpOkU32).name])) :=
  ⟨C10_final_index testParams testCam inpOk 0 (by decide) (by decide)
    (by decide) (by decide),
   C10_final_index testParams testCam inpOkU32 0 (by decide) (by decide)
    (by decide) (by decide)⟩

/-- A splat used by the C8 counterexample: fully opaque, white, at
depth 1 in tile 0. -/
def cexA : SpecModel.MSplat := ⟨1, 0, 1, 1⟩

/-- A second splat with the **same** depth as `cexA`, fully opaque,
black, in tile 0. -/
def cexB : SpecModel.MSplat := ⟨1, 0, 1, 0⟩

/-- First witness splat (depth 1). -/
def wA : SpecModel.MSplat := ⟨1, 0, 1, 1⟩

/-- Second witness splat (distinct depth 2). -/
def wB : SpecModel.MSplat := ⟨2, 0, 1, 0⟩

/-- C8 counterexample: two splats with equal depth keys in the same tile.
Swapping them is a permutation of the input, yet the rendered pixel
changes from 1 to 0 — a genuine value change, not a floating-point
summation-order effect — because the stable depth sort breaks the tie by
input position and front-to-back compositing is order-dependent. -/
theorem C8_perm_counterexample :
    [cexA, cexB].Perm [cexB, cexA] ∧
    SpecModel.renderPixel [cexA, cexB] 0 ≠
      SpecModel.renderPixel [cexB, cexA] 0 := by
  constructor
  · exact List.Perm.swap cexB cexA []
  · have hL : SpecModel.renderPixel [cexA, cexB] 0 = 1 := by
      norm_num [SpecModel.renderPixel, SpecModel.tileBucket,
        SpecModel.depthSorted, SpecModel.visibleSplats,
        SpecModel.compositeFrom, List.insertionSort, List.orderedInsert,
        SpecModel.depthLe, cexA, cexB]
    have hR : SpecModel.renderPixel [cexB, cexA] 0 = 0 := by
      norm_num [SpecModel.renderPixel, SpecModel.tileBucket,
        SpecModel.depthSorted, SpecModel.visibleSplats,
        SpecModel.compositeFrom, List.insertionSort, List.orderedInsert,
        SpecModel.depthLe, cexA, cexB]
    rw [hL, hR]
    norm_num

/-- C8 (amended): rendering is invariant under permutation of the input
splat array **provided the visible splats have pairwise-distinct depth
keys**; downstream ordering then depends only on depth and tile
membership, not input position. (With tied depth keys the stable sorts
fall back to input order and the image can change, see the
counterexample.) -/
theorem C8_perm_invariance (l1 l2 : List SpecModel.MSplat) (hp : l1.Perm l2)
    (hd : (SpecModel.visibleSplats l1).Pairwise
      fun a b => a.depth ≠ b.depth) :
    ∀ t, SpecModel.renderPixel l1 t = SpecModel.renderPixel l2 t := by
  intro t
  unfold SpecModel.renderPixel SpecModel.tileBucket
  rw [SpecModel.depthSorted_eq_of_perm l1 l2 hp hd]

/-- Witness for the amended C8: two splats at distinct depths 1 and 2,
swapped. -/
theorem C8_perm_invariance_witness :
    SpecModel.renderPixel [wA, wB] 0 =
      SpecModel.renderPixel [wB, wA] 0 :=
  C8_perm_invariance [wA, wB] [wB, wA]
    (List.Perm.swap wB wA []) (by decide) 0
